import Mathlib

/-!
Shallow embedding of `src/horn.py` (the `chime` sound-notification module).

Modelling conventions:
* A filesystem path is a list of components, relative to the package
  directory (the directory holding `horn.py`), so `themes_dir()` is
  `["themes"]`.
* The filesystem state is the contents of the themes root: a list of
  directory entries, each with a name, a directory flag, and (for
  directories) the names of the files inside.  `pathlib.Path.iterdir`
  on the themes root yields every entry, file or directory alike.
* The process-wide global `THEME` is threaded explicitly: read-only
  functions take the current value as an argument, and the setter
  `theme_set` returns the new value.  A Python `raise` aborts the
  function before any later assignment, so on the error branch the
  returned global is the incoming one, unchanged.
* The outside world (platform string, the player process's exit code
  and stderr) is an `Env` record.  Spawned processes and emitted
  `warnings.warn` calls are collected in a `RunOut` record; a raised
  exception is `Except.error` carrying a `PyError`.
-/

namespace Horn

/-- A filesystem path, as a list of components relative to the package dir. -/
abbrev Path := List String

/-- Render a path as a string (used in error messages, mirroring `str(path)`). -/
def pathToString (p : Path) : String := String.intercalate "/" p

/-- One entry of the themes root directory: its name, whether it is a
directory, and (when it is a directory) the file names it contains. -/
structure Entry where
  name : String
  isDir : Bool
  files : List String
deriving DecidableEq, Repr

/-- The filesystem state of the themes root: the entries it contains. -/
structure FS where
  rootEntries : List Entry
deriving DecidableEq, Repr

/-- An external player process as spawned by `run`: the shell command,
whether it was started detached (`subprocess.Popen`, not waited for) and
whether its stderr was sent to `DEVNULL`. -/
structure Proc where
  command : String
  detached : Bool
  stderrDiscarded : Bool
deriving DecidableEq, Repr

/-- Observable effects of a playback invocation: the processes spawned and
the warnings emitted via `warnings.warn`. -/
structure RunOut where
  spawned : List Proc
  warnings : List String
deriving DecidableEq, Repr

/-- The host environment: `sys.platform`, and the exit code and stderr the
external player process would produce when run synchronously. -/
structure Env where
  platform : String
  exitCode : Nat
  stderr : String
deriving DecidableEq, Repr

/-- A Python exception raised by the module: `ValueError` or `RuntimeError`,
with its message. -/
inductive PyError where
  | valueError : String → PyError
  | runtimeError : String → PyError
deriving DecidableEq, Repr

/-- The initial value of the module-global `THEME` (`horn.py` line 15). -/
def THEME_init : String := "mario"

/-- The message of the warning emitted on a non-zero player exit:
`f'{e} stderr: {e.stderr.decode().strip()}'`, where `str(e)` is the
`CalledProcessError` text for `command` and `code`. -/
def calledProcessMsg (command : String) (code : Nat) (stderr : String) : String :=
  "Command " ++ command ++ " returned non-zero exit status " ++ toString code ++
    ". stderr: " ++ stderr.trim

/-- `run(command, silent)` (`horn.py` lines 30-40).  With `silent` true it
spawns the command detached with stderr discarded; otherwise it runs the
command synchronously with `check=True`, catching `CalledProcessError` and
emitting one warning that carries the captured stderr. -/
def run (env : Env) (command : String) (silent : Bool) : RunOut :=
  if silent then
    { spawned := [{ command := command, detached := true, stderrDiscarded := true }],
      warnings := [] }
  else
    if env.exitCode ≠ 0 then
      { spawned := [{ command := command, detached := false, stderrDiscarded := false }],
        warnings := [calledProcessMsg command env.exitCode env.stderr] }
    else
      { spawned := [{ command := command, detached := false, stderrDiscarded := false }],
        warnings := [] }

/-- `play_wav(path, silent)` (`horn.py` lines 43-64).  On `darwin` it shells
out to `afplay`; on any other platform it raises `RuntimeError` before
anything is spawned. -/
def play_wav (env : Env) (path : Path) (silent : Bool) : Except PyError RunOut :=
  if env.platform = "darwin" then
    Except.ok (run env ("afplay " ++ pathToString path) silent)
  else
    Except.error (PyError.runtimeError ("Unsupported platform (" ++ env.platform ++ ")"))

/-- The processes spawned by a playback result: none when an exception was
raised (the exception in `play_wav` precedes any call to `run`). -/
def spawnedProcs : Except PyError RunOut → List Proc
  | Except.ok out => out.spawned
  | Except.error _ => []

/-- `themes_dir()` (`horn.py` lines 67-70): the `themes` directory next to
the module file. -/
def themes_dir : Path := ["themes"]

/-- `current_theme_dir()` (`horn.py` lines 73-75), with the global `THEME`
passed explicitly. -/
def current_theme_dir (theme : String) : Path := themes_dir ++ [theme]

/-- `themes()` (`horn.py` lines 78-80): the names of all entries yielded by
`themes_dir().iterdir()` — note `iterdir` yields files as well as
directories. -/
def themes (fs : FS) : List String := fs.rootEntries.map Entry.name

/-- Modelled from the spec words (for comparison with `themes`): "the set of
directory names under the themes root" — only directory entries. -/
def themesSpec (fs : FS) : List String :=
  (fs.rootEntries.filter Entry.isDir).map Entry.name

/-- `theme()` with no argument (`horn.py` lines 97-98): returns the current
global `THEME`. -/
def theme_get (st : String) : String := st

/-- `theme(name)` with `name` not `None` (`horn.py` lines 100-103): raises
`ValueError` when `name` is not in `themes()`, otherwise assigns the global.
The second component is the value of the global `THEME` afterwards; a raise
happens before the assignment, so on error it is the incoming value. -/
def theme_set (fs : FS) (name : String) (st : String) :
    Except PyError Unit × String :=
  if name ∉ themes fs then
    (Except.error (PyError.valueError ("Unknown theme (" ++ name ++ ")")), st)
  else
    (Except.ok (), name)

/-- `path.exists()` for a path `themes/<dir>/<file>`: true exactly when the
themes root has a directory entry named `<dir>` containing `<file>`. -/
def fileExists (fs : FS) (p : Path) : Bool :=
  match p with
  | [r, d, f] =>
      r == "themes" && fs.rootEntries.any (fun e => e.name == d && e.isDir && e.files.contains f)
  | _ => false

/-- The path `notify` resolves for an event under the current theme
(`horn.py` line 107): `current_theme_dir().joinpath(f'{event}.wav')`. -/
def notifyPath (theme : String) (event : String) : Path :=
  current_theme_dir theme ++ [event ++ ".wav"]

/-- `notify(event, silent)` (`horn.py` lines 106-110): resolves the path,
raises `ValueError` if it does not exist, otherwise delegates to
`play_wav` with that path. -/
def notify (env : Env) (fs : FS) (event : String) (silent : Bool) (st : String) :
    Except PyError RunOut :=
  let path := notifyPath st event
  if fileExists fs path then
    play_wav env path silent
  else
    Except.error (PyError.valueError (pathToString path ++ " is undefined"))

/-- `success(silent=True)` (`horn.py` lines 113-123). -/
def success (env : Env) (fs : FS) (st : String) (silent : Bool := true) :
    Except PyError RunOut :=
  notify env fs "success" silent st

/-- `warning(silent=True)` (`horn.py` lines 126-136). -/
def warning (env : Env) (fs : FS) (st : String) (silent : Bool := true) :
    Except PyError RunOut :=
  notify env fs "warning" silent st

/-- `error(silent=True)` (`horn.py` lines 139-149). -/
def error (env : Env) (fs : FS) (st : String) (silent : Bool := true) :
    Except PyError RunOut :=
  notify env fs "error" silent st

/-- `info(silent=True)` (`horn.py` lines 152-162). -/
def info (env : Env) (fs : FS) (st : String) (silent : Bool := true) :
    Except PyError RunOut :=
  notify env fs "info" silent st

/-- Observable steps of the installed exception hook. -/
inductive HookEvent where
  | playErrorAttempt
  | defaultExcepthook
deriving DecidableEq, Repr

/-- The `except_hook` closure installed by `notify_exceptions()` (`horn.py`
lines 168-170): it first attempts `error(silent=True)` and then calls
`sys.__excepthook__` on the same exception.  If the attempt itself raises,
the hook aborts and the default hook is not reached.  The exception being
reported (`exc`) does not influence the trace. -/
def except_hook (env : Env) (fs : FS) (_exc : String) (st : String) : List HookEvent :=
  match error env fs st true with
  | Except.ok _ => [HookEvent.playErrorAttempt, HookEvent.defaultExcepthook]
  | Except.error _ => [HookEvent.playErrorAttempt]

/-- A theme directory holding the four standard event sounds. -/
def marioEntry : Entry :=
  { name := "mario", isDir := true,
    files := ["success.wav", "warning.wav", "error.wav", "info.wav"] }

/-- A themes root containing only the `mario` theme directory. -/
def fsMario : FS := { rootEntries := [marioEntry] }

/-- An empty themes root. -/
def fsEmpty : FS := { rootEntries := [] }

/-- A macOS environment whose player succeeds. -/
def envMac : Env := { platform := "darwin", exitCode := 0, stderr := "" }

/-- A macOS environment whose player exits non-zero with some stderr. -/
def envMacFail : Env := { platform := "darwin", exitCode := 1, stderr := "boom" }

/-- A non-darwin environment. -/
def envLinux : Env := { platform := "linux", exitCode := 0, stderr := "" }

/-- C1: for every string `name` not in the set returned by `themes()`, and
for every filesystem state of the themes root and every current theme,
`theme(name)` raises `ValueError` (with the `Unknown theme` message) and
leaves the global unchanged. -/
theorem C1_set_theme_unknown_raises (fs : FS) (st name : String)
    (h : name ∉ themes fs) :
    theme_set fs name st =
      (Except.error (PyError.valueError ("Unknown theme (" ++ name ++ ")")), st) := by
  simp [theme_set, h]

/-- C1 witness: `"disco"` is not a theme of the `mario`-only root, and
`theme("disco")` raises `ValueError` there. -/
theorem C1_set_theme_unknown_raises_witness :
    "disco" ∉ themes fsMario ∧
      theme_set fsMario "disco" "mario" =
        (Except.error (PyError.valueError ("Unknown theme (" ++ "disco" ++ ")")), "mario") :=
  ⟨by decide, C1_set_theme_unknown_raises fsMario "mario" "disco" (by decide)⟩

/-- C2 counterexample: `themes()` is built from `iterdir()`, which also
yields non-directory entries, so on a root holding a single plain file
`stray.txt` the result contains `"stray.txt"` even though it names no
directory (the spec-worded `themesSpec` excludes it). -/
theorem C2_counterexample_nondir_included :
    "stray.txt" ∈ themes (FS.mk [Entry.mk "stray.txt" false []]) ∧
      "stray.txt" ∉ themesSpec (FS.mk [Entry.mk "stray.txt" false []]) := by
  constructor
  · simp [themes]
  · simp [themesSpec]

/-- C2 amended: `themes()` returns exactly the names of all entries present
under the themes root at call time — every entry's name, whether it is a
directory or not, and nothing else. -/
theorem C2_themes_all_entry_names (fs : FS) (n : String) :
    n ∈ themes fs ↔ ∃ e ∈ fs.rootEntries, e.name = n := by
  simp [themes]

/-- C7: before any call to the setter the global `THEME` is `"mario"`, and
whenever `theme(name)` succeeds, a subsequent `theme()` returns that name. -/
theorem C7_get_set_roundtrip :
    theme_get THEME_init = "mario" ∧
    ∀ (fs : FS) (st name st2 : String),
      theme_set fs name st = (Except.ok (), st2) → theme_get st2 = name := by
  refine ⟨rfl, ?_⟩
  intro fs st name st2 h
  unfold theme_set at h
  split at h
  · simp at h
  · cases h
    rfl

/-- C7 witness: setting the `mario` theme on the `mario`-only root succeeds
and the getter then returns `"mario"`. -/
theorem C7_get_set_roundtrip_witness :
    theme_set fsMario "mario" "other" = (Except.ok (), "mario") ∧
      theme_get "mario" = "mario" :=
  ⟨by rfl, C7_get_set_roundtrip.2 fsMario "other" "mario" "mario" (by rfl)⟩

/-- C10: if `theme(name)` raises, the global `THEME` is left unchanged —
the membership check precedes the assignment. -/
theorem C10_set_theme_atomic (fs : FS) (st name : String) (e : PyError)
    (h : (theme_set fs name st).1 = Except.error e) :
    (theme_set fs name st).2 = st := by
  by_cases hc : name ∈ themes fs
  · simp [theme_set, hc] at h
  · simp [theme_set, hc]

/-- C10 witness: the failing `theme("disco")` call leaves the global at its
prior value `"mario"`. -/
theorem C10_set_theme_atomic_witness :
    (theme_set fsMario "disco" "mario").1 =
        Except.error (PyError.valueError ("Unknown theme (" ++ "disco" ++ ")")) ∧
      (theme_set fsMario "disco" "mario").2 = "mario" :=
  ⟨by rfl,
    C10_set_theme_atomic fsMario "mario" "disco"
      (PyError.valueError ("Unknown theme (" ++ "disco" ++ ")")) (by rfl)⟩

/-- C3: for every event and blocking flag, if `<themes>/<theme>/<event>.wav`
does not exist, `notify` raises `ValueError` (which propagates); if it
exists, `notify` delegates to `play_wav` with that exact path. -/
theorem C3_notify_resolution (env : Env) (fs : FS) (event : String)
    (silent : Bool) (st : String) :
    (fileExists fs (notifyPath st event) = false →
      notify env fs event silent st =
        Except.error
          (PyError.valueError (pathToString (notifyPath st event) ++ " is undefined"))) ∧
    (fileExists fs (notifyPath st event) = true →
      notify env fs event silent st = play_wav env (notifyPath st event) silent) := by
  constructor <;> intro h <;> simp [notify, h]

/-- C3 witness: on the `mario`-only root, `notify("success", ...)` under
theme `mario` delegates to `play_wav` on the existing file, and under theme
`zelda` (no such directory) raises `ValueError`. -/
theorem C3_notify_resolution_witness :
    (fileExists fsMario (notifyPath "mario" "success") = true ∧
      notify envMac fsMario "success" true "mario" =
        play_wav envMac (notifyPath "mario" "success") true) ∧
    (fileExists fsMario (notifyPath "zelda" "success") = false ∧
      notify envMac fsMario "success" true "zelda" =
        Except.error
          (PyError.valueError (pathToString (notifyPath "zelda" "success") ++ " is undefined"))) :=
  ⟨⟨by decide, (C3_notify_resolution envMac fsMario "success" true "mario").2 (by decide)⟩,
   ⟨by decide, (C3_notify_resolution envMac fsMario "success" true "zelda").1 (by decide)⟩⟩

/-- C4: on a platform other than `darwin`, `play_wav` raises `RuntimeError`
for every path and flag, and no player process is spawned. -/
theorem C4_play_wav_unsupported (env : Env) (p : Path) (silent : Bool)
    (h : env.platform ≠ "darwin") :
    play_wav env p silent =
      Except.error (PyError.runtimeError ("Unsupported platform (" ++ env.platform ++ ")")) ∧
    spawnedProcs (play_wav env p silent) = [] := by
  constructor
  · simp [play_wav, h]
  · simp [play_wav, h, spawnedProcs]

/-- C4 witness: on `linux`, playing any file raises `RuntimeError` and
spawns nothing. -/
theorem C4_play_wav_unsupported_witness :
    envLinux.platform ≠ "darwin" ∧
    (play_wav envLinux ["x.wav"] false =
        Except.error
          (PyError.runtimeError ("Unsupported platform (" ++ envLinux.platform ++ ")")) ∧
      spawnedProcs (play_wav envLinux ["x.wav"] false) = []) :=
  ⟨by decide, C4_play_wav_unsupported envLinux ["x.wav"] false (by decide)⟩

/-- C5: in the blocking mode (`silent=False`), when the player exits
non-zero, playback returns normally (`Except.ok`, no exception) having
emitted exactly one warning, whose text carries the player's stderr. -/
theorem C5_blocking_failure_warns (env : Env) (p : Path)
    (hp : env.platform = "darwin") (hc : env.exitCode ≠ 0) :
    ∃ out, play_wav env p false = Except.ok out ∧
      out.warnings =
        [calledProcessMsg ("afplay " ++ pathToString p) env.exitCode env.stderr] ∧
      out.warnings.length = 1 := by
  refine ⟨run env ("afplay " ++ pathToString p) false, ?_, ?_, ?_⟩
  · simp [play_wav, hp]
  · simp [run, hc]
  · simp [run, hc]

/-- C5 witness: a failing player (exit 1, stderr `boom`) on darwin yields a
normal return with exactly the one warning carrying that stderr. -/
theorem C5_blocking_failure_warns_witness :
    envMacFail.platform = "darwin" ∧ envMacFail.exitCode ≠ 0 ∧
    ∃ out, play_wav envMacFail ["x.wav"] false = Except.ok out ∧
      out.warnings =
        [calledProcessMsg ("afplay " ++ pathToString ["x.wav"]) envMacFail.exitCode
          envMacFail.stderr] ∧
      out.warnings.length = 1 :=
  ⟨by decide, by decide, C5_blocking_failure_warns envMacFail ["x.wav"] (by decide) (by decide)⟩

/-- C6: each wrapper calls `notify` with its own event name, and under the
default theme `mario` the resolved path is `themes/mario/<event>.wav` for
each of the four events. -/
theorem C6_wrappers_resolve_mario :
    (∀ (env : Env) (fs : FS) (st : String) (silent : Bool),
      success env fs st silent = notify env fs "success" silent st ∧
      warning env fs st silent = notify env fs "warning" silent st ∧
      error env fs st silent = notify env fs "error" silent st ∧
      info env fs st silent = notify env fs "info" silent st) ∧
    notifyPath THEME_init "success" = ["themes", "mario", "success.wav"] ∧
    notifyPath THEME_init "warning" = ["themes", "mario", "warning.wav"] ∧
    notifyPath THEME_init "error" = ["themes", "mario", "error.wav"] ∧
    notifyPath THEME_init "info" = ["themes", "mario", "info.wav"] :=
  ⟨fun _ _ _ _ => ⟨rfl, rfl, rfl, rfl⟩, rfl, rfl, rfl, rfl⟩

/-- C8: after `notify_exceptions()` installs the hook, every reported
exception produces a trace whose first step is the single error-sound
attempt; the default `sys.__excepthook__` step can only come after it. -/
theorem C8_hook_error_sound_first (env : Env) (fs : FS) (exc st : String) :
    (except_hook env fs exc st).head? = some HookEvent.playErrorAttempt ∧
    (except_hook env fs exc st).count HookEvent.playErrorAttempt = 1 ∧
    (∀ i, (except_hook env fs exc st).get? i = some HookEvent.defaultExcepthook → 0 < i) := by
  unfold except_hook
  split
  · refine ⟨rfl, by decide, ?_⟩
    intro i hi
    match i with
    | 0 => simp at hi
    | n + 1 => exact Nat.succ_pos n
  · refine ⟨rfl, by decide, ?_⟩
    intro i hi
    match i with
    | 0 => simp at hi
    | n + 1 => exact Nat.succ_pos n

/-- C9: each wrapper called with its default argument takes the
fire-and-forget path: on darwin with the sound file present it returns
normally, the single spawned player is detached with stderr discarded, and
no warning is emitted — whatever the player's exit code and stderr. -/
theorem C9_wrappers_default_detached (env : Env) (fs : FS) (st : String)
    (hp : env.platform = "darwin")
    (h1 : fileExists fs (notifyPath st "success") = true)
    (h2 : fileExists fs (notifyPath st "warning") = true)
    (h3 : fileExists fs (notifyPath st "error") = true)
    (h4 : fileExists fs (notifyPath st "info") = true) :
    success env fs st =
      Except.ok
        { spawned := [{ command := "afplay " ++ pathToString (notifyPath st "success"),
                        detached := true, stderrDiscarded := true }],
          warnings := [] } ∧
    warning env fs st =
      Except.ok
        { spawned := [{ command := "afplay " ++ pathToString (notifyPath st "warning"),
                        detached := true, stderrDiscarded := true }],
          warnings := [] } ∧
    error env fs st =
      Except.ok
        { spawned := [{ command := "afplay " ++ pathToString (notifyPath st "error"),
                        detached := true, stderrDiscarded := true }],
          warnings := [] } ∧
    info env fs st =
      Except.ok
        { spawned := [{ command := "afplay " ++ pathToString (notifyPath st "info"),
                        detached := true, stderrDiscarded := true }],
          warnings := [] } := by
  refine ⟨?_, ?_, ?_, ?_⟩
  · simp [success, notify, h1, play_wav, hp, run]
  · simp [warning, notify, h2, play_wav, hp, run]
  · simp [error, notify, h3, play_wav, hp, run]
  · simp [info, notify, h4, play_wav, hp, run]

/-- C9 witness: with the `mario` theme and a player that would fail
(exit 1), the default-argument wrappers still return normally with a
detached, stderr-discarded spawn and no warning. -/
theorem C9_wrappers_default_detached_witness :
    envMacFail.platform = "darwin" ∧
    fileExists fsMario (notifyPath "mario" "success") = true ∧
    fileExists fsMario (notifyPath "mario" "warning") = true ∧
    fileExists fsMario (notifyPath "mario" "error") = true ∧
    fileExists fsMario (notifyPath "mario" "info") = true ∧
    (success envMacFail fsMario "mario" =
      Except.ok
        { spawned := [{ command := "afplay " ++ pathToString (notifyPath "mario" "success"),
                        detached := true, stderrDiscarded := true }],
          warnings := [] } ∧
    warning envMacFail fsMario "mario" =
      Except.ok
        { spawned := [{ command := "afplay " ++ pathToString (notifyPath "mario" "warning"),
                        detached := true, stderrDiscarded := true }],
          warnings := [] } ∧
    error envMacFail fsMario "mario" =
      Except.ok
        { spawned := [{ command := "afplay " ++ pathToString (notifyPath "mario" "error"),
                        detached := true, stderrDiscarded := true }],
          warnings := [] } ∧
    info envMacFail fsMario "mario" =
      Except.ok
        { spawned := [{ command := "afplay " ++ pathToString (notifyPath "mario" "info"),
                        detached := true, stderrDiscarded := true }],
          warnings := [] }) :=
  ⟨by decide, by decide, by decide, by decide, by decide,
    C9_wrappers_default_detached envMacFail fsMario "mario" (by decide)
      (by decide) (by decide) (by decide) (by decide)⟩

end Horn
